import Mathlib

/-!
Verification of the genset panel controller (src/Genset_Panel.ino).

The sketch is shallowly embedded: the global variables become fields of a
state record `St`, the free-running clock `millis()` becomes the `millis`
field (a `delay(ms)` advances it by exactly `ms`), analog sensor inputs,
the tachometer value and the push-button input are supplied by an
environment `Env` as functions of time, and every `digitalWrite` / `delay`
is recorded in an event trace.  The tachometer interrupt that keeps
`gEngineRpm` fresh is modelled by refreshing `gEngineRpm` from the
environment at every `delay` boundary.  C `int` values are modelled as
`Int` (no overflow is relevant to the claims), the `float` battery voltage
as `Rat`, and the bit-mask engine-state / fault words as `Nat` with
the bitwise operators of Lean.  Busy-wait loops are modelled by structural
recursion on a fuel argument chosen at the call sites to exceed the
intrinsic time bound of the loop, so that fuel exhaustion is unreachable
there; the operator-acknowledgement alarm loop, which the source leaves
unbounded, keeps its fuel as an explicit observation horizon.
-/

/-- START_RETRIES: try to start three times before giving up (per comment). -/
def START_RETRIES : Nat := 3

/-- START_RETRY_REST: milliseconds to wait before retrying to start. -/
def START_RETRY_REST : Nat := 15000

/-- START_OIL_P_PERIOD: how long to wait for oil pressure to rise. -/
def START_OIL_P_PERIOD : Nat := 15000

/-- START_GLOW_PERIOD: milliseconds to warm the glow plugs before cranking. -/
def START_GLOW_PERIOD : Nat := 6000

/-- START_CRANK_TIME: cranking window in milliseconds. -/
def START_CRANK_TIME : Nat := 15000

/-- SHUTDOWN_DELAY: unloaded idle time before shutdown. -/
def SHUTDOWN_DELAY : Nat := 15000

/-- SHUTDOWN_WAIT: wait after cutting fuel before sounding the alarm. -/
def SHUTDOWN_WAIT : Nat := 5000

/-- WARMUP_PERIOD: no load during the warm-up period. -/
def WARMUP_PERIOD : Nat := 180000

/-- MIN_COOLANT_TEMP: minimum normal operating temperature. -/
def MIN_COOLANT_TEMP : Int := 71

/-- MAX_COOLANT_TEMP: maximum allowable coolant temperature. -/
def MAX_COOLANT_TEMP : Int := 110

/-- MAX_OIL_TEMP: maximum allowable oil temperature. -/
def MAX_OIL_TEMP : Int := 120

/-- MIN_OIL_PRESSURE: minimum oil pressure. -/
def MIN_OIL_PRESSURE : Int := 200

/-- ENGINE_IDLE_RPM: idle RPM per manual. -/
def ENGINE_IDLE_RPM : Int := 1000

/-- MIN_BATT_V: 12.2 volts, as the exact rational 61/5 (given by its
reduced numerator and denominator so that comparisons compute). -/
def MIN_BATT_V : Rat := ⟨61, 5, by decide, by decide⟩

/-- Error code E_ALREADY_RUNNING (0x0001). -/
def E_ALREADY_RUNNING : Nat := 0x0001

/-- Error code E_COOLANT_TEMP_HIGH (0x0002). -/
def E_COOLANT_TEMP_HIGH : Nat := 0x0002

/-- Error code E_OIL_TEMP_HIGH (0x0006). -/
def E_OIL_TEMP_HIGH : Nat := 0x0006

/-- Error code E_BATTERY_LOW (0x0008). -/
def E_BATTERY_LOW : Nat := 0x0008

/-- Error code E_LOW_OIL_RPRESSURE (0x0016), sic. -/
def E_LOW_OIL_RPRESSURE : Nat := 0x0016

/-- Engine state bitmap: stopped. -/
def S_ENGINE_STOPPED : Nat := 0x0000

/-- Engine state bitmap: running (bit 0). -/
def S_ENGINE_RUNNING : Nat := 0x0001

/-- Engine state bitmap: starting (bit 1). -/
def S_ENGINE_STARTING : Nat := 0x0002

/-- Engine state bitmap: warmup (bit 2). -/
def S_ENGINE_WARMUP : Nat := 0x0004

/-- Engine state bitmap: fault (0x0128). -/
def S_ENGINE_FAULT : Nat := 0x0128

/-- Fuel solenoid output pin. -/
def FUEL_SOLENOID_PORT : Nat := 7

/-- Coolant pump output pin. -/
def COOLANT_PUMP_PORT : Nat := 8

/-- Alternator load relay output pin. -/
def ALTERNATATOR_LOAD_PORT : Nat := 9

/-- Glow plug output pin. -/
def GLOW_PLUG_PORT : Nat := 11

/-- Starter motor output pin. -/
def STARTER_PORT : Nat := 12

/-- Piezo buzzer output pin. -/
def BUZZER_PORT : Nat := 13

/-- Start/stop button input pin. -/
def BUTTON_PORT : Nat := 6

/-- Oil temperature analog pin A0 (Arduino pin number 14). -/
def OIL_T_PORT : Nat := 14

/-- Oil pressure analog pin A1. -/
def OIL_P_PORT : Nat := 15

/-- Coolant temperature analog pin A2. -/
def COOLANT_T_PORT : Nat := 16

/-- Coolant flow analog pin A3. -/
def COOLANT_F_PORT : Nat := 17

/-- Logic level HIGH. -/
def HIGH : Bool := true

/-- Logic level LOW. -/
def LOW : Bool := false

/-- S_ON is LOW (active-low outputs). -/
def S_ON : Bool := LOW

/-- S_OFF is HIGH. -/
def S_OFF : Bool := HIGH

/-- The controller state: the global variables of the sketch relevant to the
engine core, plus the current value of `millis()`. -/
structure St where
  gEngineState : Nat
  gStartMillis : Nat
  gEngineRpm : Int
  gOilPressure : Int
  gOilTemp : Int
  gCoolantTemp : Int
  gCoolantFlow : Int
  gStartBattVolts : Rat
  gFaultCode : Nat
  millis : Nat
deriving Repr, DecidableEq

/-- The physical environment: analog readings per pin over time, the
tachometer RPM over time, and the button level over time. -/
structure Env where
  analog : Nat → Nat → Int
  rpm : Nat → Int
  button : Nat → Bool

/-- An observable actuator event: a `digitalWrite` or a `delay`. -/
inductive Ev where
  | write (port : Nat) (level : Bool)
  | delay (ms : Nat)
deriving Repr, DecidableEq

/-- The model of `delay(ms)`: advance the clock and let the tachometer interrupt
refresh `gEngineRpm` from the environment. -/
def tick (env : Env) (st : St) (ms : Nat) : St :=
  { st with millis := st.millis + ms, gEngineRpm := env.rpm (st.millis + ms) }

/-- The C integer negation `!x`: 1 when `x` is zero, otherwise 0. -/
def cNot (x : Nat) : Nat := if x = 0 then 1 else 0

/-- The function `isRunning()`: believe the state flag first, else compare RPM to idle. -/
def isRunning (st : St) : Bool :=
  if st.gEngineState &&& S_ENGINE_RUNNING ≠ 0 then true
  else if st.gEngineRpm ≥ ENGINE_IDLE_RPM then true
  else false

/-- The function `getRunFaults()`: accumulates each detected condition into `fault`
with `&`, exactly as the source does. -/
def getRunFaults (st : St) : Nat :=
  let fault : Nat := 0
  let fault := if st.gCoolantTemp ≥ MAX_COOLANT_TEMP then fault &&& E_COOLANT_TEMP_HIGH else fault
  let fault := if st.gOilTemp ≥ MAX_OIL_TEMP then fault &&& E_OIL_TEMP_HIGH else fault
  let fault := if st.gStartBattVolts ≤ MIN_BATT_V then fault &&& E_BATTERY_LOW else fault
  let fault :=
    if st.millis > st.gStartMillis + START_OIL_P_PERIOD ∧ st.gOilPressure < MIN_OIL_PRESSURE then
      fault &&& E_LOW_OIL_RPRESSURE
    else fault
  fault

/-- The function `getPreStartFaults()`: it `&`-accumulates `E_ALREADY_RUNNING` and then
`&`s in the run faults, exactly as the source does. -/
def getPreStartFaults (st : St) : Nat :=
  let fault : Nat := 0
  let fault := if isRunning st then fault &&& E_ALREADY_RUNNING else fault
  fault &&& getRunFaults st

/-- A concrete snapshot with coolant temperature 120 ≥ MAX_COOLANT_TEMP. -/
def hotCoolantSt : St :=
  { gEngineState := S_ENGINE_STOPPED, gStartMillis := 0, gEngineRpm := 1500,
    gOilPressure := 300, gOilTemp := 90, gCoolantTemp := 120, gCoolantFlow := 10,
    gStartBattVolts := 13, gFaultCode := 0, millis := 1000000 }

/-- A state 10 s after start with oil pressure 0: inside the grace period. -/
def noOilPressureSt : St :=
  { gEngineState := 1, gStartMillis := 0, gEngineRpm := 1500,
    gOilPressure := 0, gOilTemp := 90, gCoolantTemp := 80, gCoolantFlow := 10,
    gStartBattVolts := 13, gFaultCode := 0, millis := 10000 }

/-- The shutdown polling loop of `engineImmediateStop`:
`while (millis() < limit) { delay(200); if (!isRunning()) { gEngineState ^=
S_ENGINE_RUNNING; break; } }`, with explicit fuel (call sites pass fuel
larger than the number of 200 ms steps that fit in the window). -/
def stopPoll (env : Env) (limit : Nat) : Nat → St → St × List Ev
  | 0, st => (st, [])
  | fuel + 1, st =>
    if st.millis < limit then
      let st' := tick env st 200
      if !(isRunning st') then
        ({ st' with gEngineState := st'.gEngineState ^^^ S_ENGINE_RUNNING }, [Ev.delay 200])
      else
        let r := stopPoll env limit fuel st'
        (r.1, Ev.delay 200 :: r.2)
    else (st, [])

/-- The operator-acknowledgement alarm loop of `engineImmediateStop`:
`while (digitalRead(BUTTON_PORT) == S_OFF) { buzz on; delay; buzz off;
delay; }`.  The source loop is unbounded; `fuel` is the observation
horizon and the returned Bool says whether the loop exited (button seen
pressed) within it. -/
def alarmLoop (env : Env) : Nat → St → St × List Ev × Bool
  | 0, st => (st, [], false)
  | fuel + 1, st =>
    if env.button st.millis = S_OFF then
      let st' := tick env (tick env st 200) 200
      let r := alarmLoop env fuel st'
      (r.1, Ev.write BUZZER_PORT HIGH :: Ev.delay 200 :: Ev.write BUZZER_PORT LOW ::
        Ev.delay 200 :: r.2.1, r.2.2)
    else (st, [], true)

/-- The observable outcome of a stop / start sequence: final state, event
trace, whether the unresolved-stop alarm loop was entered, and whether it
exited within the alarm fuel horizon. -/
structure Res where
  st : St
  evs : List Ev
  alarmEntered : Bool
  alarmExited : Bool
deriving Repr, DecidableEq

/-- The function `engineImmediateStop()`: cut fuel, poll `isRunning` for SHUTDOWN_WAIT,
then, if the running flag is (still) set, sound the alarm until the button
is pressed. -/
def engineImmediateStop (env : Env) (alarmFuel : Nat) (st : St) : Res :=
  let limit := st.millis + SHUTDOWN_WAIT
  let p := stopPoll env limit SHUTDOWN_WAIT st
  if p.1.gEngineState &&& S_ENGINE_RUNNING ≠ 0 then
    let a := alarmLoop env alarmFuel p.1
    { st := a.1, evs := Ev.write FUEL_SOLENOID_PORT S_OFF :: (p.2 ++ a.2.1),
      alarmEntered := true, alarmExited := a.2.2 }
  else
    { st := p.1, evs := Ev.write FUEL_SOLENOID_PORT S_OFF :: p.2,
      alarmEntered := false, alarmExited := true }

/-- The function `engineStop()`: de-energize the alternator load, idle unloaded for
SHUTDOWN_DELAY, then run the immediate stop. -/
def engineStop (env : Env) (alarmFuel : Nat) (st : St) : Res :=
  let st' := tick env st SHUTDOWN_DELAY
  let r := engineImmediateStop env alarmFuel st'
  { r with evs := Ev.write ALTERNATATOR_LOAD_PORT S_OFF :: Ev.delay SHUTDOWN_DELAY :: r.evs }

/-- The cranking loop of `engineStart`: `while (millis() < crankMillis) {
delay(200); gFaultCode = getRunFaults(); if (gFaultCode > 0) { gEngineState
&= S_ENGINE_FAULT; break; } if (isRunning()) { gEngineState = gEngineState
& S_ENGINE_RUNNING & S_ENGINE_WARMUP; gStartMillis = millis(); break; } }`,
with explicit fuel exceeding the 200 ms step count of the window. -/
def crankLoop (env : Env) (limit : Nat) : Nat → St → St × List Ev
  | 0, st => (st, [])
  | fuel + 1, st =>
    if st.millis < limit then
      let st1 := tick env st 200
      let st2 := { st1 with gFaultCode := getRunFaults st1 }
      if st2.gFaultCode > 0 then
        ({ st2 with gEngineState := st2.gEngineState &&& S_ENGINE_FAULT }, [Ev.delay 200])
      else if isRunning st2 then
        ({ st2 with
            gEngineState := st2.gEngineState &&& S_ENGINE_RUNNING &&& S_ENGINE_WARMUP,
            gStartMillis := st2.millis }, [Ev.delay 200])
      else
        let r := crankLoop env limit fuel st2
        (r.1, Ev.delay 200 :: r.2)
    else (st, [])

/-- The function `engineStart()`: beep, flag starting (with `&`), fuel and glow plugs
on, glow pre-heat, crank for up to START_CRANK_TIME, de-energize starter
and glow plugs, toggle the starting flag off, and if the fault pattern is
present run the immediate stop. -/
def engineStart (env : Env) (alarmFuel : Nat) (st : St) : Res :=
  let st1 := { st with gEngineState := st.gEngineState &&& S_ENGINE_STARTING }
  let st2 := tick env st1 START_GLOW_PERIOD
  let crankMillis := st2.millis + START_CRANK_TIME
  let c := crankLoop env crankMillis START_CRANK_TIME st2
  let st3 := { c.1 with gEngineState := c.1.gEngineState ^^^ S_ENGINE_STARTING }
  let evs :=
    Ev.write BUZZER_PORT HIGH :: Ev.write BUZZER_PORT LOW ::
      Ev.write FUEL_SOLENOID_PORT S_ON :: Ev.write GLOW_PLUG_PORT S_ON ::
      Ev.delay START_GLOW_PERIOD :: Ev.write STARTER_PORT S_ON ::
      (c.2 ++ [Ev.write STARTER_PORT S_OFF, Ev.write GLOW_PLUG_PORT S_OFF])
  if st3.gEngineState &&& S_ENGINE_FAULT ≠ 0 then
    let r := engineImmediateStop env alarmFuel st3
    { r with evs := evs ++ Ev.write ALTERNATATOR_LOAD_PORT S_OFF :: r.evs }
  else
    { st := st3, evs := evs, alarmEntered := false, alarmExited := true }

/-- The retry loop of `start()`: `for (int startRetries = START_RETRIES;
startRetries > 1; startRetries--) { engineStart(); if (isRunning()) break;
delay(START_RETRY_REST); }`, recursing on the counter.  The returned Nat
counts the `engineStart` calls (crank attempts) performed. -/
def startLoop (env : Env) (alarmFuel : Nat) : Nat → St → St × List Ev × Nat
  | 0, st => (st, [], 0)
  | n + 1, st =>
    if n + 1 > 1 then
      let r := engineStart env alarmFuel st
      if isRunning r.st then (r.st, r.evs, 1)
      else
        let st2 := tick env r.st START_RETRY_REST
        let k := startLoop env alarmFuel n st2
        (k.1, r.evs ++ Ev.delay START_RETRY_REST :: k.2.1, k.2.2 + 1)
    else (st, [], 0)

/-- The function `start()`: run the pre-start gate; on a non-zero fault code `&` the
fault pattern into the state and return; otherwise reset the state to
stopped, wait 200 ms and run the retry loop.  Returns the final state,
the event trace and the number of crank attempts. -/
def start (env : Env) (alarmFuel : Nat) (st : St) : St × List Ev × Nat :=
  let st1 := { st with gFaultCode := getPreStartFaults st }
  if st1.gFaultCode ≠ 0 then
    ({ st1 with gEngineState := st1.gEngineState &&& S_ENGINE_FAULT }, [], 0)
  else
    let st2 := { st1 with gEngineState := S_ENGINE_STOPPED }
    let st3 := tick env st2 200
    let k := startLoop env alarmFuel START_RETRIES st3
    (k.1, Ev.delay 200 :: k.2.1, k.2.2)

/-- The function `manageEngine()`: return early when `!gEngineState & S_ENGINE_RUNNING`
is non-zero (C precedence: true exactly when the state word is zero), read
the four analog sensors, end warm-up when warm or the warm-up period has
elapsed, then evaluate run faults and stop on any. -/
def manageEngine (env : Env) (alarmFuel : Nat) (st : St) : St × List Ev :=
  if cNot st.gEngineState &&& S_ENGINE_RUNNING ≠ 0 then (st, [])
  else
    let st1 := { st with
      gOilPressure := env.analog OIL_P_PORT st.millis,
      gOilTemp := env.analog OIL_T_PORT st.millis,
      gCoolantTemp := env.analog COOLANT_T_PORT st.millis,
      gCoolantFlow := env.analog COOLANT_F_PORT st.millis }
    let w : St × List Ev :=
      if st1.gEngineState &&& S_ENGINE_WARMUP ≠ 0 ∧
          (st1.gCoolantTemp > MIN_COOLANT_TEMP ∨
            st1.millis > st1.gStartMillis + WARMUP_PERIOD) then
        ({ st1 with gEngineState := st1.gEngineState ^^^ S_ENGINE_WARMUP },
          [Ev.write ALTERNATATOR_LOAD_PORT S_ON, Ev.write COOLANT_PUMP_PORT S_ON])
      else (st1, ([] : List Ev))
    let st2 : St := { w.1 with gFaultCode := getRunFaults w.1 }
    if st2.gFaultCode ≠ 0 then
      let st3 : St := { st2 with gEngineState := st2.gEngineState &&& S_ENGINE_FAULT }
      let r := engineStop env alarmFuel st3
      (r.st, w.2 ++ r.evs)
    else (st2, w.2)

/-- An environment whose coolant sensor reads 80 everywhere. -/
def warmEnv : Env :=
  { analog := fun _ _ => 80, rpm := fun _ => 1500, button := fun _ => true }

/-- A state in warm-up (running and warm-up flags set) 10 s after start. -/
def warmupSt : St :=
  { gEngineState := 5, gStartMillis := 0, gEngineRpm := 1500,
    gOilPressure := 300, gOilTemp := 90, gCoolantTemp := 60, gCoolantFlow := 10,
    gStartBattVolts := 13, gFaultCode := 0, millis := 10000 }

/-- The reachable values of `gEngineState`: `init` is the initialiser
`S_ENGINE_STOPPED`; each other constructor is one of the assignments to
`gEngineState` in the source (`start`, `engineStart`, `engineImmediateStop`,
`manageEngine`), closed under any interleaving. -/
inductive ReachState : Nat → Prop where
  | init : ReachState S_ENGINE_STOPPED
  | andFault {s} : ReachState s → ReachState (s &&& S_ENGINE_FAULT)
  | andStarting {s} : ReachState s → ReachState (s &&& S_ENGINE_STARTING)
  | andRunWarm {s} : ReachState s →
      ReachState (s &&& S_ENGINE_RUNNING &&& S_ENGINE_WARMUP)
  | xorStarting {s} : ReachState s → ReachState (s ^^^ S_ENGINE_STARTING)
  | xorRunning {s} : ReachState s → ReachState (s ^^^ S_ENGINE_RUNNING)
  | xorWarmup {s} : ReachState s → ReachState (s ^^^ S_ENGINE_WARMUP)

/-- The engine observed stopped at some poll of the shutdown window: the
break condition of `stopPoll`, on the same 200 ms schedule. -/
def pollBreaks (env : Env) (limit : Nat) : Nat → St → Bool
  | 0, _ => false
  | fuel + 1, st =>
    if st.millis < limit then
      let st' := tick env st 200
      if !(isRunning st') then true
      else pollBreaks env limit fuel st'
    else false

/-- The tachometer reads 0 forever: the engine is genuinely stopped. -/
def deadEnv : Env :=
  { analog := fun _ _ => 0, rpm := fun _ => 0, button := fun _ => true }

/-- A leftover-starting state: flag word 2 (running bit clear), engine not
turning. -/
def staleStartSt : St :=
  { gEngineState := 2, gStartMillis := 0, gEngineRpm := 0,
    gOilPressure := 0, gOilTemp := 0, gCoolantTemp := 0, gCoolantFlow := 0,
    gStartBattVolts := 13, gFaultCode := 0, millis := 0 }

/-- A flagged-running state (bit 0 set) at time 0. -/
def flaggedRunSt : St :=
  { gEngineState := 1, gStartMillis := 0, gEngineRpm := 1500,
    gOilPressure := 300, gOilTemp := 90, gCoolantTemp := 80, gCoolantFlow := 10,
    gStartBattVolts := 13, gFaultCode := 0, millis := 0 }

/-- The engine keeps spinning at 1500 RPM and the button is never pressed. -/
def spinningEnv : Env :=
  { analog := fun _ _ => 0, rpm := fun _ => 1500, button := fun _ => true }

/-- A stale state: starting flag only (running bit clear), at time 0. -/
def spinningStaleSt : St :=
  { gEngineState := 2, gStartMillis := 0, gEngineRpm := 1500,
    gOilPressure := 0, gOilTemp := 0, gCoolantTemp := 0, gCoolantFlow := 0,
    gStartBattVolts := 13, gFaultCode := 0, millis := 0 }

/-- The initial controller state after `setup()`: everything zero. -/
def initialSt : St :=
  { gEngineState := S_ENGINE_STOPPED, gStartMillis := 0, gEngineRpm := 0,
    gOilPressure := 0, gOilTemp := 0, gCoolantTemp := 0, gCoolantFlow := 0,
    gStartBattVolts := 0, gFaultCode := 0, millis := 0 }

/-- An engine that only fires late: the tachometer reads 1500 from t = 30 s
(during the second crank attempt) and 0 before. -/
def lateFireEnv : Env :=
  { analog := fun _ _ => 0, rpm := fun t => if t ≥ 30000 then 1500 else 0,
    button := fun _ => true }

/-- A stopped controller whose engine is in fact turning at 1500 RPM:
the pre-start condition "AlreadyRunning" is physically present. -/
def alreadyRunningSt : St :=
  { gEngineState := S_ENGINE_STOPPED, gStartMillis := 0, gEngineRpm := 1500,
    gOilPressure := 0, gOilTemp := 0, gCoolantTemp := 0, gCoolantFlow := 0,
    gStartBattVolts := 13, gFaultCode := 0, millis := 0 }

theorem getRunFaults_eq_zero (st : St) : getRunFaults st = 0 := by
  unfold getRunFaults
  split_ifs <;> rfl

theorem getPreStartFaults_eq_zero (st : St) : getPreStartFaults st = 0 := by
  unfold getPreStartFaults
  split_ifs <;> simp [getRunFaults_eq_zero]

/-- C1: for every controller state (hence every sensor snapshot and every
elapsed time), both `getRunFaults` and `getPreStartFaults` return 0: the
fault accumulator starts at 0 and `&`-ing masks into 0 leaves 0, so no
fault kind is ever present in the returned code. -/
theorem c1_faults_always_zero (st : St) :
    getRunFaults st = 0 ∧ getPreStartFaults st = 0 :=
  ⟨getRunFaults_eq_zero st, getPreStartFaults_eq_zero st⟩

/-- C2: the claim demands that a snapshot with coolantTempC ≥
MAX_COOLANT_TEMP always yields a fault code containing E_COOLANT_TEMP_HIGH;
the code violates it: at the concrete snapshot `hotCoolantSt`
(coolant 120 ≥ 110) `getRunFaults` returns 0, which does not contain the
CoolantOverTemp bits, because the accumulator uses `&` instead of `|`. -/
theorem c2_hot_coolant_reports_no_fault :
    hotCoolantSt.gCoolantTemp ≥ MAX_COOLANT_TEMP ∧
      getRunFaults hotCoolantSt = 0 ∧
      getRunFaults hotCoolantSt &&& E_COOLANT_TEMP_HIGH = 0 := by
  refine ⟨by decide, getRunFaults_eq_zero hotCoolantSt, ?_⟩
  simp [getRunFaults_eq_zero]

/-- C6: before the oil-pressure grace period START_OIL_P_PERIOD has elapsed
since gStartMillis was set, the E_LOW_OIL_RPRESSURE bits are never present
in the result of `getRunFaults`, whatever the measured oil pressure. -/
theorem c6_no_low_oil_pressure_in_grace_period (st : St)
    (h : st.millis ≤ st.gStartMillis + START_OIL_P_PERIOD) :
    getRunFaults st &&& E_LOW_OIL_RPRESSURE = 0 := by
  simp [getRunFaults_eq_zero]

/-- Witness for C6: at `noOilPressureSt` the grace period has not elapsed
and the low-oil-pressure fault is absent. -/
theorem c6_no_low_oil_pressure_in_grace_period_witness :
    noOilPressureSt.millis ≤ noOilPressureSt.gStartMillis + START_OIL_P_PERIOD ∧
      getRunFaults noOilPressureSt &&& E_LOW_OIL_RPRESSURE = 0 :=
  ⟨by decide, c6_no_low_oil_pressure_in_grace_period noOilPressureSt (by decide)⟩

/-- C5: in every graceful stop, the command de-energizing the alternator
load is the first actuator command, the fuel-cut command comes strictly
after it, and a SHUTDOWN_DELAY hold separates them: the trace of
`engineStop` always begins with exactly alternator-off, delay
SHUTDOWN_DELAY, fuel-off — so the fuel solenoid is never de-energized
before the alternator load. -/
theorem c5_graceful_stop_orders_load_before_fuel (env : Env) (alarmFuel : Nat) (st : St) :
    ∃ rest, (engineStop env alarmFuel st).evs =
      Ev.write ALTERNATATOR_LOAD_PORT S_OFF :: Ev.delay SHUTDOWN_DELAY ::
        Ev.write FUEL_SOLENOID_PORT S_OFF :: rest := by
  unfold engineStop engineImmediateStop
  dsimp only
  split <;> exact ⟨_, rfl⟩

theorem and_two_pow_ne_zero_iff (s i : Nat) : s &&& 2 ^ i ≠ 0 ↔ s.testBit i = true := by
  rw [Nat.and_two_pow]
  cases h : s.testBit i <;> simp [h]

theorem xor_two_pow_clears {s i : Nat} (h : s.testBit i = true) :
    (s ^^^ 2 ^ i) &&& 2 ^ i = 0 := by
  rw [Nat.and_two_pow, Nat.testBit_xor, h, Nat.testBit_two_pow_self]
  simp

theorem xor_two_pow_sets {s i : Nat} (h : s.testBit i = false) :
    (s ^^^ 2 ^ i) &&& 2 ^ i ≠ 0 := by
  rw [Nat.and_two_pow, Nat.testBit_xor, h, Nat.testBit_two_pow_self]
  simp [Nat.pos_iff_ne_zero.mp (Nat.two_pow_pos i)]

/-- C7: whenever `manageEngine` runs with the warm-up flag set and the
freshly read coolant temperature exceeds MIN_COOLANT_TEMP or the warm-up
period has elapsed since gStartMillis, the emitted actuator commands are
exactly alternator-load-on and coolant-pump-on — both in this same step —
and the warm-up flag is cleared in the resulting state. -/
theorem c7_warmup_exit_energizes_both (env : Env) (alarmFuel : Nat) (st : St)
    (h1 : st.gEngineState &&& S_ENGINE_WARMUP ≠ 0)
    (h2 : env.analog COOLANT_T_PORT st.millis > MIN_COOLANT_TEMP ∨
      st.millis > st.gStartMillis + WARMUP_PERIOD) :
    (manageEngine env alarmFuel st).2 =
      [Ev.write ALTERNATATOR_LOAD_PORT S_ON, Ev.write COOLANT_PUMP_PORT S_ON] ∧
      (manageEngine env alarmFuel st).1.gEngineState &&& S_ENGINE_WARMUP = 0 := by
  have hne : st.gEngineState ≠ 0 := by
    intro h0
    apply h1
    rw [h0]
    rfl
  have hbit : st.gEngineState.testBit 2 = true := by
    have := (and_two_pow_ne_zero_iff st.gEngineState 2).mp
    simp only [show (2:Nat) ^ 2 = 4 from rfl] at this
    exact this h1
  have hz : ∀ x : St, ¬(getRunFaults x ≠ 0) := fun x hc => hc (getRunFaults_eq_zero x)
  unfold manageEngine cNot
  rw [if_neg hne]
  dsimp only
  rw [if_neg (by decide : ¬((0:Nat) &&& S_ENGINE_RUNNING ≠ 0)),
    if_pos (show st.gEngineState &&& S_ENGINE_WARMUP ≠ 0 ∧
      (env.analog COOLANT_T_PORT st.millis > MIN_COOLANT_TEMP ∨
        st.millis > st.gStartMillis + WARMUP_PERIOD) from ⟨h1, h2⟩)]
  dsimp only
  rw [if_neg (hz _)]
  refine ⟨rfl, ?_⟩
  exact xor_two_pow_clears hbit

/-- Witness for C7: at `warmupSt` under `warmEnv` the coolant reads 80 >
MIN_COOLANT_TEMP, so the step emits exactly the two energize commands and
clears the warm-up flag. -/
theorem c7_warmup_exit_energizes_both_witness :
    (warmupSt.gEngineState &&& S_ENGINE_WARMUP ≠ 0 ∧
      warmEnv.analog COOLANT_T_PORT warmupSt.millis > MIN_COOLANT_TEMP) ∧
      (manageEngine warmEnv 0 warmupSt).2 =
        [Ev.write ALTERNATATOR_LOAD_PORT S_ON, Ev.write COOLANT_PUMP_PORT S_ON] ∧
      (manageEngine warmEnv 0 warmupSt).1.gEngineState &&& S_ENGINE_WARMUP = 0 :=
  ⟨⟨by decide, by decide⟩,
    c7_warmup_exit_energizes_both warmEnv 0 warmupSt (by decide) (Or.inl (by decide))⟩

theorem and_xor_right (a b c : Nat) : (a ^^^ b) &&& c = a &&& c ^^^ b &&& c := by
  apply Nat.eq_of_testBit_eq
  intro i
  simp only [Nat.testBit_and, Nat.testBit_xor]
  cases a.testBit i <;> cases b.testBit i <;> cases c.testBit i <;> rfl

/-- C9: every reachable value of `gEngineState` satisfies
`gEngineState & S_ENGINE_FAULT = 0` (the only fault-directed assignment
`gEngineState & S_ENGINE_FAULT` can only clear bits, and no other
assignment introduces a bit of the 0x0128 pattern), so the fault pattern
is never actually held and every branch guarded by
`gEngineState & S_ENGINE_FAULT` is unreachable. -/
theorem c9_fault_state_unreachable {s : Nat} (h : ReachState s) :
    s &&& S_ENGINE_FAULT = 0 ∧ s ≠ S_ENGINE_FAULT := by
  have main : s &&& S_ENGINE_FAULT = 0 := by
    induction h with
    | init => decide
    | andFault _ ih =>
        rw [Nat.and_assoc, show S_ENGINE_FAULT &&& S_ENGINE_FAULT = S_ENGINE_FAULT by decide]
        exact ih
    | andStarting _ _ =>
        rw [Nat.and_assoc, show S_ENGINE_STARTING &&& S_ENGINE_FAULT = 0 by decide,
          Nat.and_zero]
    | andRunWarm _ _ =>
        rw [Nat.and_assoc, show S_ENGINE_WARMUP &&& S_ENGINE_FAULT = 0 by decide,
          Nat.and_zero]
    | xorStarting _ ih =>
        rw [and_xor_right, ih, show S_ENGINE_STARTING &&& S_ENGINE_FAULT = 0 by decide]
        decide
    | xorRunning _ ih =>
        rw [and_xor_right, ih, show S_ENGINE_RUNNING &&& S_ENGINE_FAULT = 0 by decide]
        decide
    | xorWarmup _ ih =>
        rw [and_xor_right, ih, show S_ENGINE_WARMUP &&& S_ENGINE_FAULT = 0 by decide]
        decide
  refine ⟨main, fun he => ?_⟩
  rw [he] at main
  exact absurd main (by decide)

/-- Witness for C9: the state value after `gEngineState ^= S_ENGINE_STARTING`
from the initial state is reachable and carries no fault bits. -/
theorem c9_fault_state_unreachable_witness :
    ReachState (S_ENGINE_STOPPED ^^^ S_ENGINE_STARTING) ∧
      (S_ENGINE_STOPPED ^^^ S_ENGINE_STARTING) &&& S_ENGINE_FAULT = 0 ∧
      S_ENGINE_STOPPED ^^^ S_ENGINE_STARTING ≠ S_ENGINE_FAULT :=
  ⟨ReachState.xorStarting ReachState.init,
    (c9_fault_state_unreachable (ReachState.xorStarting ReachState.init)).1,
    (c9_fault_state_unreachable (ReachState.xorStarting ReachState.init)).2⟩

theorem and_one_eq_zero_iff (s : Nat) : s &&& S_ENGINE_RUNNING = 0 ↔ s.testBit 0 = false := by
  constructor
  · intro h
    by_contra hb
    have := (and_two_pow_ne_zero_iff s 0).mpr (by revert hb; cases s.testBit 0 <;> simp)
    simp only [pow_zero] at this
    exact this h
  · intro h
    have : ¬s &&& 2 ^ 0 ≠ 0 := by
      rw [and_two_pow_ne_zero_iff, h]
      simp
    simp only [pow_zero, not_not] at this
    exact this

theorem tick_gEngineState (env : Env) (st : St) (ms : Nat) :
    (tick env st ms).gEngineState = st.gEngineState := rfl

/-- With the running flag clear at entry, a break inside the shutdown
polling loop toggles the flag on: the final state has the flag set. -/
theorem stopPoll_break_sets_flag (env : Env) (limit : Nat) :
    ∀ fuel st, st.gEngineState &&& S_ENGINE_RUNNING = 0 →
      pollBreaks env limit fuel st = true →
      (stopPoll env limit fuel st).1.gEngineState &&& S_ENGINE_RUNNING ≠ 0 := by
  intro fuel
  induction fuel with
  | zero => intro st _ hb; exact absurd hb (by simp [pollBreaks])
  | succ n ih =>
      intro st h0 hb
      unfold pollBreaks at hb
      unfold stopPoll
      by_cases ht : st.millis < limit
      · rw [if_pos ht] at hb ⊢
        dsimp only at hb ⊢
        by_cases hr : !(isRunning (tick env st 200))
        · rw [if_pos hr]
          dsimp only
          have hbit : (tick env st 200).gEngineState.testBit 0 = false := by
            rw [tick_gEngineState]
            exact (and_one_eq_zero_iff _).mp h0
          have := xor_two_pow_sets hbit
          simp only [pow_zero] at this
          exact this
        · rw [if_neg hr] at hb ⊢
          dsimp only
          exact ih (tick env st 200) (by rw [tick_gEngineState]; exact h0) hb
      · rw [if_neg ht] at hb
        exact absurd hb (by simp)

/-- C10: if `engineImmediateStop` runs with the S_ENGINE_RUNNING bit of
gEngineState clear and the engine is observed stopped (`isRunning` false)
at some poll of the SHUTDOWN_WAIT window, the `^= S_ENGINE_RUNNING`
update sets rather than clears the bit, the post-window check therefore
sees the engine as running, and the unresolved-stop alarm loop is entered
even though the engine has confirmed stopped. -/
theorem c10_xor_false_alarm (env : Env) (alarmFuel : Nat) (st : St)
    (h0 : st.gEngineState &&& S_ENGINE_RUNNING = 0)
    (hb : pollBreaks env (st.millis + SHUTDOWN_WAIT) SHUTDOWN_WAIT st = true) :
    (stopPoll env (st.millis + SHUTDOWN_WAIT) SHUTDOWN_WAIT st).1.gEngineState &&&
        S_ENGINE_RUNNING ≠ 0 ∧
      (engineImmediateStop env alarmFuel st).alarmEntered = true := by
  have hset := stopPoll_break_sets_flag env (st.millis + SHUTDOWN_WAIT) SHUTDOWN_WAIT st h0 hb
  refine ⟨hset, ?_⟩
  unfold engineImmediateStop
  dsimp only
  rw [if_pos hset]

/-- Witness for C10: with the running bit clear and a stopped engine, the
first poll observes `isRunning` false, and the alarm is entered anyway. -/
theorem c10_xor_false_alarm_witness :
    (staleStartSt.gEngineState &&& S_ENGINE_RUNNING = 0 ∧
      pollBreaks deadEnv (staleStartSt.millis + SHUTDOWN_WAIT) SHUTDOWN_WAIT staleStartSt
        = true) ∧
      (stopPoll deadEnv (staleStartSt.millis + SHUTDOWN_WAIT) SHUTDOWN_WAIT
          staleStartSt).1.gEngineState &&& S_ENGINE_RUNNING ≠ 0 ∧
      (engineImmediateStop deadEnv 2 staleStartSt).alarmEntered = true :=
  ⟨⟨by decide, by decide⟩,
    c10_xor_false_alarm deadEnv 2 staleStartSt (by decide) (by decide)⟩

/-- With the running flag set at entry, `isRunning` short-circuits on the
flag, so the shutdown polling loop never breaks and the state word is
unchanged. -/
theorem stopPoll_keeps_flag (env : Env) (limit : Nat) :
    ∀ fuel st, st.gEngineState &&& S_ENGINE_RUNNING ≠ 0 →
      (stopPoll env limit fuel st).1.gEngineState = st.gEngineState := by
  intro fuel
  induction fuel with
  | zero => intro st _; rfl
  | succ n ih =>
      intro st h0
      unfold stopPoll
      by_cases ht : st.millis < limit
      · rw [if_pos ht]
        dsimp only
        have hrun : isRunning (tick env st 200) = true := by
          unfold isRunning
          rw [tick_gEngineState, if_pos h0]
        rw [if_neg (by rw [hrun]; simp)]
        dsimp only
        rw [ih (tick env st 200) (by rw [tick_gEngineState]; exact h0), tick_gEngineState]
      · rw [if_neg ht]

theorem stopPoll_evs_delay (env : Env) (limit : Nat) :
    ∀ fuel st e, e ∈ (stopPoll env limit fuel st).2 → e = Ev.delay 200 := by
  intro fuel
  induction fuel with
  | zero => intro st e he; simp [stopPoll] at he
  | succ n ih =>
      intro st e he
      unfold stopPoll at he
      by_cases ht : st.millis < limit
      · rw [if_pos ht] at he
        dsimp only at he
        by_cases hr : !(isRunning (tick env st 200))
        · rw [if_pos hr] at he
          simp at he
          exact he
        · rw [if_neg hr] at he
          dsimp only at he
          rcases List.mem_cons.mp he with h | h
          · exact h
          · exact ih _ _ h
      · rw [if_neg ht] at he
        simp at he

theorem alarmLoop_evs (env : Env) :
    ∀ fuel st e, e ∈ (alarmLoop env fuel st).2.1 →
      e = Ev.write BUZZER_PORT HIGH ∨ e = Ev.write BUZZER_PORT LOW ∨ e = Ev.delay 200 := by
  intro fuel
  induction fuel with
  | zero => intro st e he; simp [alarmLoop] at he
  | succ n ih =>
      intro st e he
      unfold alarmLoop at he
      by_cases hbt : env.button st.millis = S_OFF
      · rw [if_pos hbt] at he
        dsimp only at he
        rcases List.mem_cons.mp he with h | he
        · exact Or.inl h
        rcases List.mem_cons.mp he with h | he
        · exact Or.inr (Or.inr h)
        rcases List.mem_cons.mp he with h | he
        · exact Or.inr (Or.inl h)
        rcases List.mem_cons.mp he with h | he
        · exact Or.inr (Or.inr h)
        · exact ih _ _ he
      · rw [if_neg hbt] at he
        simp at he

/-- If the button is never pressed, the alarm loop never exits, at any
observation horizon: the unresolved-stop condition never clears itself. -/
theorem alarmLoop_no_exit (env : Env) (hb : ∀ t, env.button t = S_OFF) :
    ∀ fuel st, (alarmLoop env fuel st).2.2 = false := by
  intro fuel
  induction fuel with
  | zero => intro st; rfl
  | succ n ih =>
      intro st
      unfold alarmLoop
      rw [if_pos (hb st.millis)]
      dsimp only
      exact ih _

/-- If the alarm loop exits, the button was observed pressed (not S_OFF)
at the exit time. -/
theorem alarmLoop_exit_button (env : Env) :
    ∀ fuel st, (alarmLoop env fuel st).2.2 = true →
      env.button (alarmLoop env fuel st).1.millis ≠ S_OFF := by
  intro fuel
  induction fuel with
  | zero => intro st he; exact absurd he (by simp [alarmLoop])
  | succ n ih =>
      intro st he
      unfold alarmLoop at he ⊢
      by_cases hbt : env.button st.millis = S_OFF
      · rw [if_pos hbt] at he ⊢
        dsimp only at he ⊢
        exact ih _ he
      · rw [if_neg hbt] at he ⊢
        exact hbt

theorem alarmLoop_buzzes (env : Env) (fuel : Nat) (st : St)
    (hbt : env.button st.millis = S_OFF) :
    Ev.write BUZZER_PORT HIGH ∈ (alarmLoop env (fuel + 1) st).2.1 := by
  unfold alarmLoop
  rw [if_pos hbt]
  dsimp only
  exact List.mem_cons_self _ _

/-- C8 (amended): when `engineImmediateStop` runs with the S_ENGINE_RUNNING
bit of gEngineState set — then `isRunning` stays true throughout the
SHUTDOWN_WAIT window, whatever the sensors say — the unresolved-stop
condition is entered: the fuel solenoid is de-energized first and never
re-energized, the whole trace consists only of the fuel cut, delays and
buzzer drive, the alarm loop never exits while the button is unpressed (at
any horizon), and if it exits the button was observed pressed at that
moment. -/
theorem c8_unresolved_stop_with_flag_set (env : Env) (alarmFuel : Nat) (st : St)
    (h0 : st.gEngineState &&& S_ENGINE_RUNNING ≠ 0) :
    (engineImmediateStop env alarmFuel st).alarmEntered = true ∧
      (engineImmediateStop env alarmFuel st).evs.head? =
        some (Ev.write FUEL_SOLENOID_PORT S_OFF) ∧
      (∀ e ∈ (engineImmediateStop env alarmFuel st).evs,
        e = Ev.write FUEL_SOLENOID_PORT S_OFF ∨ e = Ev.delay 200 ∨
          e = Ev.write BUZZER_PORT HIGH ∨ e = Ev.write BUZZER_PORT LOW) ∧
      ((∀ t, env.button t = S_OFF) → 0 < alarmFuel →
        Ev.write BUZZER_PORT HIGH ∈ (engineImmediateStop env alarmFuel st).evs) ∧
      ((∀ t, env.button t = S_OFF) →
        (engineImmediateStop env alarmFuel st).alarmExited = false) ∧
      ((engineImmediateStop env alarmFuel st).alarmExited = true →
        env.button (engineImmediateStop env alarmFuel st).st.millis ≠ S_OFF) := by
  have hkeep := stopPoll_keeps_flag env (st.millis + SHUTDOWN_WAIT) SHUTDOWN_WAIT st h0
  unfold engineImmediateStop
  dsimp only
  rw [if_pos (by rw [hkeep]; exact h0)]
  refine ⟨rfl, rfl, ?_, ?_, ?_, ?_⟩
  · intro e he
    rcases List.mem_cons.mp he with h | he
    · exact Or.inl h
    rcases List.mem_append.mp he with h | h
    · exact Or.inr (Or.inl (stopPoll_evs_delay env _ _ _ _ h))
    · rcases alarmLoop_evs env _ _ _ h with h | h | h
      · exact Or.inr (Or.inr (Or.inl h))
      · exact Or.inr (Or.inr (Or.inr h))
      · exact Or.inr (Or.inl h)
  · intro hb hf
    cases alarmFuel with
    | zero => exact absurd hf (Nat.lt_irrefl 0)
    | succ n =>
        have hbz := alarmLoop_buzzes env n
          (stopPoll env (st.millis + SHUTDOWN_WAIT) SHUTDOWN_WAIT st).1 (hb _)
        exact List.mem_cons_of_mem _ (List.mem_append_right _ hbz)
  · intro hb
    exact alarmLoop_no_exit env hb _ _
  · intro he
    exact alarmLoop_exit_button env _ _ he

/-- Witness for C8 (amended): with the running flag set and the button
never pressed, the alarm is entered, the trace is fuel-cut, delays and
buzzer only, and the loop has not exited within the horizon. -/
theorem c8_unresolved_stop_with_flag_set_witness :
    (flaggedRunSt.gEngineState &&& S_ENGINE_RUNNING ≠ 0) ∧
      (engineImmediateStop spinningEnv 3 flaggedRunSt).alarmEntered = true ∧
      (engineImmediateStop spinningEnv 3 flaggedRunSt).evs.head? =
        some (Ev.write FUEL_SOLENOID_PORT S_OFF) ∧
      (∀ e ∈ (engineImmediateStop spinningEnv 3 flaggedRunSt).evs,
        e = Ev.write FUEL_SOLENOID_PORT S_OFF ∨ e = Ev.delay 200 ∨
          e = Ev.write BUZZER_PORT HIGH ∨ e = Ev.write BUZZER_PORT LOW) ∧
      ((∀ t, spinningEnv.button t = S_OFF) → 0 < 3 →
        Ev.write BUZZER_PORT HIGH ∈ (engineImmediateStop spinningEnv 3 flaggedRunSt).evs) ∧
      ((∀ t, spinningEnv.button t = S_OFF) →
        (engineImmediateStop spinningEnv 3 flaggedRunSt).alarmExited = false) ∧
      ((engineImmediateStop spinningEnv 3 flaggedRunSt).alarmExited = true →
        spinningEnv.button (engineImmediateStop spinningEnv 3 flaggedRunSt).st.millis
          ≠ S_OFF) :=
  ⟨by decide, c8_unresolved_stop_with_flag_set spinningEnv 3 flaggedRunSt (by decide)⟩

/-- Counterexample for C8 as stated: with the running bit clear but the
engine spinning at 1500 RPM for the whole window, `isRunning` stays true
(it is true at entry and the loop never observes it false, so the state
word is unchanged), yet the alarm loop is NOT entered and no buzzer
command is ever emitted: the unresolved-stop condition is skipped even
though the engine did not stop. -/
theorem c8_counterexample_no_alarm_when_flag_clear :
    isRunning spinningStaleSt = true ∧
      pollBreaks spinningEnv (spinningStaleSt.millis + SHUTDOWN_WAIT) SHUTDOWN_WAIT
        spinningStaleSt = false ∧
      (engineImmediateStop spinningEnv 5 spinningStaleSt).st.gEngineState =
        spinningStaleSt.gEngineState ∧
      (engineImmediateStop spinningEnv 5 spinningStaleSt).alarmEntered = false ∧
      Ev.write BUZZER_PORT HIGH ∉ (engineImmediateStop spinningEnv 5 spinningStaleSt).evs := by
  decide

/-- C3: the claim demands exactly START_RETRIES = 3 crank attempts followed
by a Fault(StartFailed) transition, and Warmup after 2 failures plus one
success; the code violates both.  With an engine that never fires
(`deadEnv`) the retry loop `for (startRetries = 3; startRetries > 1; ...)`
performs only 2 crank attempts and returns with gEngineState = 0 — no fault
state is ever entered (no StartFailed kind even exists).  With an engine
that fires on the second attempt (`lateFireEnv`) the final state does not
carry the Warmup flag either, because the success path computes
`gEngineState & S_ENGINE_RUNNING & S_ENGINE_WARMUP` = 0. -/
theorem c3_two_attempts_no_fault_no_warmup :
    (start deadEnv 0 initialSt).2.2 = 2 ∧
      (start deadEnv 0 initialSt).1.gEngineState = 0 ∧
      (start lateFireEnv 0 initialSt).2.2 = 2 ∧
      (start lateFireEnv 0 initialSt).1.gEngineState &&& S_ENGINE_WARMUP = 0 := by
  decide

/-- C4: the claim demands that a start requested while a pre-start fault
condition is present (here AlreadyRunning: `isRunning()` true) is rejected
with no actuator written; the code violates it: `getPreStartFaults()`
returns 0 even then (the `&` accumulation), so `start()` proceeds and
energizes the fuel solenoid, glow plugs and starter. -/
theorem c4_prestart_gate_is_dead :
    isRunning alreadyRunningSt = true ∧
      getPreStartFaults alreadyRunningSt = 0 ∧
      Ev.write FUEL_SOLENOID_PORT S_ON ∈ (start spinningEnv 0 alreadyRunningSt).2.1 ∧
      Ev.write GLOW_PLUG_PORT S_ON ∈ (start spinningEnv 0 alreadyRunningSt).2.1 ∧
      Ev.write STARTER_PORT S_ON ∈ (start spinningEnv 0 alreadyRunningSt).2.1 := by
  decide
